import Mathlib

/-!
Verification development for the TMAS assertion-aggregation core.

The Python sources (models.py, controller.py) are embedded shallowly:
SQLAlchemy rows become plain structures, relationship attributes become
fields holding the eagerly-loaded associated rows, Python floats become
rationals, and fallible lookups return Option.  Python's stable
list.sort(key=..., reverse=True) is modelled by a stable insertion sort
on the same key; any stable sort by the same key is extensionally equal.
-/

namespace TMAS

/-- Model of Python str.lower(): lowercase every character. -/
def pyLower (s : String) : String := String.mk (s.data.map Char.toLower)

/-- Character-list version of Python str.startswith. -/
def leadsWith : List Char → List Char → Bool
  | [], _ => true
  | _ :: _, [] => false
  | p :: ps, c :: cs => p == c && leadsWith ps cs

/-- Model of Python s.startswith(pre). -/
def pyStartsWith (s pre : String) : Bool := leadsWith pre.data s.data

/-- Structural model of the JSON values assembled by models.py (json.dumps
serialization itself is not modelled; the claims are about the structure). -/
inductive Json where
  | str : String → Json
  | num : ℚ → Json
  | int : Int → Json
  | arr : List Json → Json
  | obj : List (String × Json) → Json
  | null : Json

/-- A row of the evidence_score table (models.py EvidenceScore). -/
structure EvidenceScore where
  evidence_id : String
  predicate_curie : String
  score : ℚ
deriving DecidableEq

/-- Modelled from the spec: the evidence-version ORM class is not among the
given sources (controller.py reads ev.version as rows carrying an integer
version tag; spec section 3 says Evidence owns a set of version tags). -/
structure EvidenceVersion where
  version : Int
deriving DecidableEq

/-- A row of the entity table (models.py Entity). -/
structure Entity where
  entity_id : String
  span : String
  covered_text : String
deriving DecidableEq

/-- A row of the evidence table with its eagerly-loaded associations
(models.py Evidence). -/
structure Evidence where
  evidence_id : String
  assertion_id : String
  document_id : String
  sentence : String
  subject_entity : Option Entity
  object_entity : Option Entity
  document_zone : String
  document_publication_type : String
  document_year_published : Int
  evidence_scores : List EvidenceScore
  version : List EvidenceVersion
deriving DecidableEq

/-- A row of the pr_to_uniprot table (models.py PRtoUniProt). -/
structure PRtoUniProt where
  pr : String
  uniprot : String
deriving DecidableEq

/-- A row of the assertion table with its eagerly-loaded associations
(models.py Assertion). -/
structure Assertion where
  assertion_id : String
  subject_curie : String
  object_curie : String
  association_curie : String
  evidence_list : List Evidence
  subject_uniprot : Option PRtoUniProt
  object_uniprot : Option PRtoUniProt
deriving DecidableEq

/-- One step of the stable descending insertion sort on evidence scores:
x is placed before the first element whose score is not larger, so among
equal scores earlier (insertion-order) elements stay first, exactly the
behaviour of Python's stable list.sort(key=score, reverse=True). -/
def insertScoreDesc (x : EvidenceScore) : List EvidenceScore → List EvidenceScore
  | [] => [x]
  | y :: ys => if x.score < y.score then y :: insertScoreDesc x ys else x :: y :: ys

/-- Stable sort of evidence scores by score, descending (models.py line 201). -/
def sortScoresDesc (l : List EvidenceScore) : List EvidenceScore :=
  l.foldr insertScoreDesc []

/-- models.py Evidence.get_top_predicate: sort the scores descending (stable)
and take the predicate of the first.  Python raises IndexError on an empty
score list; that failure is modelled as none. -/
def Evidence.get_top_predicate (e : Evidence) : Option String :=
  (sortScoresDesc e.evidence_scores).head?.map EvidenceScore.predicate_curie

/-- The lookup inside models.py Evidence.get_score: first score entry whose
predicate_curie matches, none (Python None) when there is no entry. -/
def Evidence.score_lookup (e : Evidence) (p : String) : Option ℚ :=
  (e.evidence_scores.find? (fun x => x.predicate_curie == p)).map EvidenceScore.score

/-- models.py Evidence.get_score(predicate=None): when no predicate is given
the top predicate is used (none models the crash of get_top_predicate on an
evidence without scores, which Python raises on). -/
def Evidence.get_score (e : Evidence) (predicate : Option String) : Option ℚ :=
  match predicate with
  | some p => e.score_lookup p
  | none =>
    match e.get_top_predicate with
    | some p => e.score_lookup p
    | none => none

/-- models.py Assertion.get_predicates: the set of distinct top predicates of
the evidence list.  Python's set is modelled as a deduplicated list; evidence
without scores would make Python raise, here it contributes nothing. -/
def Assertion.get_predicates (a : Assertion) : List String :=
  (a.evidence_list.filterMap Evidence.get_top_predicate).dedup

/-- models.py Assertion.get_aggregate_score: mean of get_score() over the
evidence whose top predicate is the given one.  Python raises
ZeroDivisionError when that subset is empty; modelled as none.  For the
filtered evidence get_score none is always some (top predicate has an entry),
so the filterMap drops nothing. -/
def Assertion.get_aggregate_score (a : Assertion) (predicate : String) : Option ℚ :=
  let relevant_scores := (a.evidence_list.filter
    (fun e => e.get_top_predicate == some predicate)).filterMap
    (fun e => e.get_score none)
  if relevant_scores.length = 0 then none
  else some (relevant_scores.sum / (relevant_scores.length : ℚ))

/-- Rendering of an optional float value inside a JSON attribute (Python
would raise before reaching the dump when the value is missing). -/
def jsonOfOptQ : Option ℚ → Json
  | some q => Json.num q
  | none => Json.null

/-- Rendering of an entity span inside a JSON attribute; Python dereferences
the entity without a guard here (models.py lines 265 and 272), so an absent
entity is a failure, modelled as null. -/
def jsonOfSpan : Option Entity → Json
  | some ent => Json.str ent.span
  | none => Json.null

/-- models.py Evidence.get_json_attributes: the evidence-level attribute
block (one per contributing evidence item in the exported edge). -/
def Evidence.get_json_attributes (e : Evidence) : Json :=
  Json.obj [
    ("attribute_type_id", Json.str "biolink:supporting_study_result"),
    ("value", Json.str ("tmkp:" ++ e.evidence_id)),
    ("value_type_id", Json.str "biolink:TextMiningResult"),
    ("description", Json.str "a single result from running NLP tool over a piece of text"),
    ("attribute_source", Json.str "infores:text-mining-provider-targeted"),
    ("attributes", Json.arr [
      Json.obj [
        ("attribute_type_id", Json.str "biolink:supporting_text"),
        ("value", Json.str e.sentence),
        ("value_type_id", Json.str "EDAM:data_3671"),
        ("description", Json.str "A sentence asserting the Biolink association represented by the parent edge"),
        ("attribute_source", Json.str "infores:text-mining-provider-targeted")],
      Json.obj [
        ("attribute_type_id", Json.str "biolink:supporting_document"),
        ("value", Json.str e.document_id),
        ("value_type_id", Json.str "biolink:Publication"),
        ("value_url", Json.str ("https://pubmed.ncbi.nlm.nih.gov/" ++
          (e.document_id.splitOn ":").getLastD "" ++ "/")),
        ("description", Json.str "The document that contains the sentence that asserts the Biolink association represented by the parent edge"),
        ("attribute_source", Json.str "infores:pubmed")],
      Json.obj [
        ("attribute_type_id", Json.str "biolink:supporting_document_type"),
        ("value", Json.str e.document_publication_type),
        ("value_type_id", Json.str "MESH:U000020"),
        ("description", Json.str "The publication type(s) for the document in which the sentence appears, as defined by PubMed; pipe-delimited"),
        ("attribute_source", Json.str "infores:pubmed")],
      Json.obj [
        ("attribute_type_id", Json.str "biolink:supporting_document_year"),
        ("value", Json.int e.document_year_published),
        ("value_type_id", Json.str "UO:0000036"),
        ("description", Json.str "The year the document in which the sentence appears was published"),
        ("attribute_source", Json.str "infores:pubmed")],
      Json.obj [
        ("attribute_type_id", Json.str "biolink:supporting_text_located_in"),
        ("value", Json.str e.document_zone),
        ("value_type_id", Json.str "IAO_0000314"),
        ("description", Json.str "The part of the document where the sentence is located, e.g. title, abstract, introduction, conclusion, etc."),
        ("attribute_source", Json.str "infores:pubmed")],
      Json.obj [
        ("attribute_type_id", Json.str "biolink:extraction_confidence_score"),
        ("value", jsonOfOptQ (e.get_score none)),
        ("value_type_id", Json.str "EDAM:data_1772"),
        ("description", Json.str "The score provided by the underlying algorithm that asserted this sentence to represent the assertion specified by the parent edge"),
        ("attribute_source", Json.str "infores:text-mining-provider-targeted")],
      Json.obj [
        ("attribute_type_id", Json.str "biolink:subject_location_in_text"),
        ("value", jsonOfSpan e.subject_entity),
        ("value_type_id", Json.str "SIO:001056"),
        ("description", Json.str "The start and end character offsets relative to the sentence for the subject of the assertion represented by the parent edge; start and end offsets are pipe-delimited, discontinuous spans are delimited using commas"),
        ("attribute_source", Json.str "infores:text-mining-provider-targeted")],
      Json.obj [
        ("attribute_type_id", Json.str "biolink:object_location_in_text"),
        ("value", jsonOfSpan e.object_entity),
        ("value_type_id", Json.str "SIO:001056"),
        ("description", Json.str "The start and end character offsets relative to the sentence for the object of the assertion represented by the parent edge; start and end offsets are pipe-delimited, discontinuous spans are delimited using commas"),
        ("attribute_source", Json.str "infores:text-mining-provider-targeted ")]])]

/-- First assertion-level attribute of models.py Assertion.get_json_attributes. -/
def originalSourceAttr : Json :=
  Json.obj [
    ("attribute_type_id", Json.str "biolink:original_knowledge_source"),
    ("value", Json.str "infores:text-mining-provider-targeted"),
    ("value_type_id", Json.str "biolink:InformationResource"),
    ("description", Json.str "The Text Mining Provider Targeted Biolink Association KP from NCATS Translator provides text-mined assertions from the biomedical literature."),
    ("attribute_source", Json.str "infores:text-mining-provider-targeted")]

/-- Second assertion-level attribute of models.py Assertion.get_json_attributes. -/
def supportingDataSourceAttr : Json :=
  Json.obj [
    ("attribute_type_id", Json.str "biolink:supporting_data_source"),
    ("value", Json.str "infores:pubmed"),
    ("value_type_id", Json.str "biolink:InformationResource"),
    ("attribute_source", Json.str "infores:text-mining-provider-targeted")]

/-- Third assertion-level attribute: the evidence count. -/
def evidenceCountAttr (n : Nat) : Json :=
  Json.obj [
    ("attribute_type_id", Json.str "biolink:has_evidence_count"),
    ("value", Json.int n),
    ("value_type_id", Json.str "biolink:EvidenceCount"),
    ("description", Json.str "The count of the number of sentences that assert this edge"),
    ("attribute_source", Json.str "infores:text-mining-provider-targeted")]

/-- Fourth assertion-level attribute: the aggregate confidence score. -/
def confidenceAttr (score : Option ℚ) : Json :=
  Json.obj [
    ("attribute_type_id", Json.str "biolink:tmkp_confidence_score"),
    ("value", jsonOfOptQ score),
    ("value_type_id", Json.str "biolink:ConfidenceLevel"),
    ("description", Json.str "An aggregate confidence score that combines evidence from all sentences that support the edge"),
    ("attribute_source", Json.str "infores:text-mining-provider-targeted")]

/-- Fifth assertion-level attribute: the pipe-joined supporting documents. -/
def supportingDocumentAttr (docs : String) : Json :=
  Json.obj [
    ("attribute_type_id", Json.str "biolink:supporting_document"),
    ("value", Json.str docs),
    ("value_type_id", Json.str "biolink:Publication"),
    ("description", Json.str "The document(s) that contains the sentence(s) that assert the Biolink association represented by the edge; pipe-delimited"),
    ("attribute_source", Json.str "infores:pubmed")]

/-- models.py Assertion.get_json_attributes: five assertion-level attributes
followed by one evidence-level block per evidence item in the given list
(the appending for-loop at lines 136-137). -/
def Assertion.get_json_attributes (a : Assertion) (predicate : String)
    (evidence_list : List Evidence) : List Json :=
  [originalSourceAttr,
   supportingDataSourceAttr,
   evidenceCountAttr evidence_list.length,
   confidenceAttr (a.get_aggregate_score predicate),
   supportingDocumentAttr (String.intercalate "|" (evidence_list.map Evidence.document_id))] ++
  evidence_list.map Evidence.get_json_attributes

/-- The export record built by models.py Assertion.get_edge_kgx, as a record
with one field per list position. -/
structure KgxEdge where
  subject : String
  predicate : String
  object : String
  assertion_id : String
  association_curie : String
  score : Option ℚ
  supporting_study_results : String
  supporting_publications : String
  attributes : List Json

/-- models.py Assertion.get_edge_kgx. -/
def Assertion.get_edge_kgx (a : Assertion) (predicate : String) : KgxEdge :=
  let relevant_evidence := a.evidence_list.filter
    (fun ev => ev.get_top_predicate == some predicate)
  { subject := a.subject_curie
    predicate := predicate
    object := a.object_curie
    assertion_id := a.assertion_id
    association_curie := a.association_curie
    score := a.get_aggregate_score predicate
    supporting_study_results :=
      String.intercalate "|" (relevant_evidence.map (fun ev => "tmkp:" ++ ev.evidence_id))
    supporting_publications :=
      String.intercalate "|" (relevant_evidence.map Evidence.document_id)
    attributes := a.get_json_attributes predicate relevant_evidence }

/-- models.py Assertion.get_edges_kgx: one record per supported predicate. -/
def Assertion.get_edges_kgx (a : Assertion) : List KgxEdge :=
  a.get_predicates.map a.get_edge_kgx

/-- controller.py EDGE_LIMIT (default 500 when the environment does not
override it). -/
def EDGE_LIMIT : Nat := 500

/-- The edge dictionary built by controller.py get_edge_list (lines 293-305). -/
structure Edge where
  document_pmid : String
  document_zone : String
  document_year : Int
  predicate_curie : String
  confidence_score : ℚ
  sentence : String
  subject_span : String
  object_span : String
  subject_curie : String
  object_curie : String
  version : List Int
deriving DecidableEq

/-- One edge row of controller.py get_edge_list.  confidence_score there is
ev.get_score(predicate), the individual evidence score; for rows built by the
loop the lookup always succeeds (the evidence's top predicate has a score
entry), so the getD default never surfaces. -/
def edgeOf (sub obj : String) (predicate : String) (ev : Evidence) : Edge :=
  { document_pmid := ev.document_id
    document_zone := ev.document_zone
    document_year := ev.document_year_published
    predicate_curie := predicate
    confidence_score := (ev.get_score (some predicate)).getD 0
    sentence := ev.sentence
    subject_span := (match ev.subject_entity with | some ent => ent.span | none => "0|0")
    object_span := (match ev.object_entity with | some ent => ent.span | none => "0|0")
    subject_curie := sub
    object_curie := obj
    version := ev.version.map EvidenceVersion.version }

/-- The nested loop of controller.py get_edge_list (lines 290-292): for each
predicate in the assertion's predicate set, every evidence item whose top
predicate equals it. -/
def Assertion.matchedPairs (a : Assertion) : List (String × Evidence) :=
  a.get_predicates.flatMap (fun predicate =>
    (a.evidence_list.filter (fun ev => ev.get_top_predicate == some predicate)).map
      (fun ev => (predicate, ev)))

/-- controller.py get_edge_list. -/
def get_edge_list (assertions : List Assertion) (use_uniprot : Bool) : List Edge :=
  assertions.flatMap (fun a =>
    let sub := if use_uniprot then
        (match a.subject_uniprot with | some r => r.uniprot | none => a.subject_curie)
      else a.subject_curie
    let obj := if use_uniprot then
        (match a.object_uniprot with | some r => r.uniprot | none => a.object_curie)
      else a.object_curie
    a.matchedPairs.map (fun pe => edgeOf sub obj pe.1 pe.2))

/-- The relationship .has(...) test of controller.py assertion_query: the
assertion's joined cross-reference row exists and carries the given uniprot. -/
def uniprotHas : Option PRtoUniProt → String → Bool
  | some r, c => r.uniprot == c
  | none, _ => false

/-- The selection stage of controller.py assertion_query (lines 101-145):
the branch structure on the subject and object specs, each query modelled as
a filter over the assertion table followed by the limit. -/
def selectAssertions (db : List Assertion) (subject_curie object_curie : String) :
    List Assertion :=
  if pyLower subject_curie == "any" then
    if pyLower object_curie == "any" then
      db.take EDGE_LIMIT
    else if pyStartsWith object_curie "UniProtKB" then
      (db.filter (fun a => uniprotHas a.object_uniprot object_curie)).take EDGE_LIMIT
    else
      (db.filter (fun a => a.object_curie == object_curie)).take EDGE_LIMIT
  else
    if object_curie == "Any" then
      if pyStartsWith subject_curie "UniProtKB" then
        (db.filter (fun a => uniprotHas a.subject_uniprot subject_curie)).take EDGE_LIMIT
      else
        (db.filter (fun a => a.subject_curie == subject_curie)).take EDGE_LIMIT
    else if pyStartsWith object_curie "UniProtKB" then
      if pyStartsWith subject_curie "UniProtKB" then
        (db.filter (fun a => uniprotHas a.object_uniprot object_curie &&
          uniprotHas a.subject_uniprot subject_curie)).take EDGE_LIMIT
      else
        (db.filter (fun a => uniprotHas a.object_uniprot object_curie &&
          a.subject_curie == subject_curie)).take EDGE_LIMIT
    else if pyStartsWith subject_curie "UniProtKB" then
      (db.filter (fun a => a.object_curie == object_curie &&
        uniprotHas a.subject_uniprot subject_curie)).take EDGE_LIMIT
    else
      (db.filter (fun a => a.subject_curie == subject_curie &&
        a.object_curie == object_curie)).take EDGE_LIMIT

/-- The predicate post-filter of controller.py assertion_query line 151:
keep the edge when its predicate matches or the spec is the literal "Any". -/
def keepPredicate (predicate_curie : String) (edge : Edge) : Bool :=
  edge.predicate_curie == predicate_curie || predicate_curie == "Any"

/-- The version filter of controller.py assertion_query lines 149-150,
parameterized by the version tag (the code uses the constant 2). -/
def filterVersion (v : Int) (edges : List Edge) : List Edge :=
  edges.filter (fun e => e.version.contains v)

/-- The edge-accumulation loop of controller.py assertion_query lines 146-152:
an edge survives when version 2 is in its version list and the predicate
post-filter keeps it. -/
def survivingEdges (db : List Assertion) (subject predicate object_c : String) :
    List Edge :=
  (get_edge_list (selectAssertions db subject object_c)
    (pyStartsWith subject "UniProtKB" || pyStartsWith object_c "UniProtKB")).filter
    (fun e => e.version.contains 2 && keepPredicate predicate e)

/-- One step of the stable descending insertion sort on edges, keyed by
confidence_score, mirroring Python's stable
edges.sort(key=confidence_score, reverse=True) at controller.py line 154. -/
def insertEdgeDesc (x : Edge) : List Edge → List Edge
  | [] => [x]
  | y :: ys =>
    if x.confidence_score < y.confidence_score then y :: insertEdgeDesc x ys
    else x :: y :: ys

/-- Stable sort of edges by confidence_score, descending. -/
def sortEdgesDesc (l : List Edge) : List Edge := l.foldr insertEdgeDesc []

/-- The results list of controller.py assertion_query: surviving edges
ranked by confidence_score, descending, stable. -/
def assertion_query_results (db : List Assertion) (subject predicate object_c : String) :
    List Edge :=
  sortEdgesDesc (survivingEdges db subject predicate object_c)

/-! Helper lemmas about the stable descending sort on evidence scores. -/

lemma insertScoreDesc_perm (x : EvidenceScore) (l : List EvidenceScore) :
    List.Perm (insertScoreDesc x l) (x :: l) := by
  induction l with
  | nil => exact List.Perm.refl _
  | cons y ys ih =>
    by_cases h : x.score < y.score
    · simp only [insertScoreDesc, if_pos h]
      exact (ih.cons y).trans (List.Perm.swap x y ys)
    · simp only [insertScoreDesc, if_neg h]
      exact List.Perm.refl _

lemma sortScoresDesc_perm (l : List EvidenceScore) :
    List.Perm (sortScoresDesc l) l := by
  induction l with
  | nil => exact List.Perm.refl _
  | cons x xs ih =>
    exact (insertScoreDesc_perm x (sortScoresDesc xs)).trans (ih.cons x)

lemma sortScoresDesc_ne_nil {l : List EvidenceScore} (h : l ≠ []) :
    sortScoresDesc l ≠ [] := by
  intro hc
  have := (sortScoresDesc_perm l).length_eq
  rw [hc] at this
  exact h (List.eq_nil_of_length_eq_zero this.symm)

/-- The head of the stable descending sort is the first maximal element of
the input: all elements before it are strictly smaller, all elements after
it are no larger. -/
lemma sortScores_head_first_max :
    ∀ l : List EvidenceScore, l ≠ [] →
      ∃ s l1 l2, l = l1 ++ s :: l2 ∧
        (sortScoresDesc l).head? = some s ∧
        (∀ t ∈ l1, t.score < s.score) ∧
        (∀ t ∈ l2, t.score ≤ s.score) := by
  intro l
  induction l with
  | nil => intro h; exact absurd rfl h
  | cons x xs ih =>
    intro _
    cases xs with
    | nil => exact ⟨x, [], [], rfl, rfl, by simp, by simp⟩
    | cons y ys =>
      obtain ⟨s, l1, l2, hdec, hhead, hlt, hle⟩ := ih (by simp)
      cases hs : sortScoresDesc (y :: ys) with
      | nil => rw [hs] at hhead; simp at hhead
      | cons a r =>
        rw [hs] at hhead
        simp only [List.head?_cons, Option.some.injEq] at hhead
        subst hhead
        have hstep : sortScoresDesc (x :: y :: ys) =
            insertScoreDesc x (sortScoresDesc (y :: ys)) := rfl
        by_cases hx : x.score < a.score
        · refine ⟨a, x :: l1, l2, by simp [hdec], ?_, ?_, hle⟩
          · rw [hstep, hs]
            simp [insertScoreDesc, if_pos hx]
          · intro t ht
            rcases List.mem_cons.mp ht with h1 | h1
            · subst h1; exact hx
            · exact hlt t h1
        · push_neg at hx
          refine ⟨x, [], y :: ys, rfl, ?_, by simp, ?_⟩
          · rw [hstep, hs]
            simp [insertScoreDesc, if_neg (not_lt.mpr hx)]
          · intro t ht
            rw [hdec] at ht
            rcases List.mem_append.mp ht with h1 | h1
            · exact le_trans (le_of_lt (hlt t h1)) hx
            · rcases List.mem_cons.mp h1 with h2 | h2
              · rw [h2]; exact hx
              · exact le_trans (hle t h2) hx

lemma top_isSome_of_ne_nil {e : Evidence} (h : e.evidence_scores ≠ []) :
    ∃ p, e.get_top_predicate = some p := by
  unfold Evidence.get_top_predicate
  cases hs : (sortScoresDesc e.evidence_scores).head? with
  | none =>
    exact absurd (List.head?_eq_none_iff.mp hs) (sortScoresDesc_ne_nil h)
  | some s => exact ⟨s.predicate_curie, by simp⟩

lemma top_mem_scores {e : Evidence} {p : String} (h : e.get_top_predicate = some p) :
    ∃ s ∈ e.evidence_scores, s.predicate_curie = p := by
  unfold Evidence.get_top_predicate at h
  cases hs : (sortScoresDesc e.evidence_scores).head? with
  | none => rw [hs] at h; simp at h
  | some s =>
    rw [hs] at h
    simp at h
    refine ⟨s, ?_, h⟩
    exact (sortScoresDesc_perm e.evidence_scores).mem_iff.mp
      (List.mem_of_mem_head? (by simp [hs]))

lemma score_lookup_some_of_top {e : Evidence} {p : String}
    (h : e.get_top_predicate = some p) : ∃ q, e.score_lookup p = some q := by
  obtain ⟨s, hs, hp⟩ := top_mem_scores h
  have hfind : (e.evidence_scores.find? (fun x => x.predicate_curie == p)).isSome :=
    List.find?_isSome.mpr ⟨s, hs, by simp [hp]⟩
  obtain ⟨r, hr⟩ := Option.isSome_iff_exists.mp hfind
  exact ⟨r.score, by simp [Evidence.score_lookup, hr]⟩

lemma get_score_none_eq {e : Evidence} {p : String}
    (h : e.get_top_predicate = some p) : e.get_score none = e.score_lookup p := by
  simp [Evidence.get_score, h]

/-- The claim id is C4.  For every evidence item with at least one
EvidenceScore, get_top_predicate returns the predicate_curie of a score row
whose score is maximal among the evidence's scores, and every row stored
before it has a strictly smaller score: among tied maxima the first row in
the store's natural (insertion) order wins. -/
theorem c4_top_is_first_max (e : Evidence) (h : e.evidence_scores ≠ []) :
    ∃ s l1 l2,
      e.evidence_scores = l1 ++ s :: l2 ∧
      e.get_top_predicate = some s.predicate_curie ∧
      (∀ t ∈ e.evidence_scores, t.score ≤ s.score) ∧
      (∀ t ∈ l1, t.score < s.score) := by
  obtain ⟨s, l1, l2, hdec, hhead, hlt, hle⟩ := sortScores_head_first_max _ h
  refine ⟨s, l1, l2, hdec, ?_, ?_, hlt⟩
  · simp [Evidence.get_top_predicate, hhead]
  · intro t ht
    rw [hdec] at ht
    rcases List.mem_append.mp ht with h1 | h1
    · exact le_of_lt (hlt t h1)
    · rcases List.mem_cons.mp h1 with h2 | h2
      · rw [h2]
      · exact hle t h2

/-- Concrete fixture: an evidence item with two perfectly tied top scores. -/
def c4Evidence : Evidence :=
  { evidence_id := "tmkp:E400", assertion_id := "A4", document_id := "PMID:4",
    sentence := "s4", subject_entity := none, object_entity := none,
    document_zone := "abstract", document_publication_type := "Journal Article",
    document_year_published := 2020,
    evidence_scores := [⟨"tmkp:E400", "biolink:treats", 5⟩,
                        ⟨"tmkp:E400", "biolink:contributes_to", 5⟩],
    version := [⟨2⟩] }

/-- Witness for C4: the first-inserted of the two tied scores wins on a
concrete evidence item. -/
theorem c4_witness :
    Evidence.get_top_predicate c4Evidence = some "biolink:treats" ∧
    ∃ s l1 l2,
      c4Evidence.evidence_scores = l1 ++ s :: l2 ∧
      c4Evidence.get_top_predicate = some s.predicate_curie ∧
      (∀ t ∈ c4Evidence.evidence_scores, t.score ≤ s.score) ∧
      (∀ t ∈ l1, t.score < s.score) :=
  ⟨by decide, c4_top_is_first_max c4Evidence (by decide)⟩

/-! Helper lemmas about score lookups and the aggregate score. -/

lemma exists_of_forall_isSome {α β : Type} (f : α → Option β) :
    ∀ l : List α, (∀ x ∈ l, (f x).isSome = true) →
      ∃ qs : List β, l.map f = qs.map some ∧ l.filterMap f = qs ∧ qs.length = l.length := by
  intro l
  induction l with
  | nil => exact fun _ => ⟨[], rfl, rfl, rfl⟩
  | cons x t ih =>
    intro h
    obtain ⟨qs, h1, h2, h3⟩ := ih (fun y hy => h y (List.mem_cons_of_mem _ hy))
    obtain ⟨b, hb⟩ := Option.isSome_iff_exists.mp (h x (List.mem_cons_self _ _))
    refine ⟨b :: qs, ?_, ?_, ?_⟩
    · simp [hb, h1]
    · simp [List.filterMap_cons, hb, h2]
    · simp [h3]

lemma mem_predicates_iff (a : Assertion) (p : String) :
    p ∈ a.get_predicates ↔ ∃ e ∈ a.evidence_list, e.get_top_predicate = some p := by
  simp [Assertion.get_predicates, List.mem_dedup, List.mem_filterMap]

lemma top_of_mem_rel {a : Assertion} {p : String} {e : Evidence}
    (h : e ∈ a.evidence_list.filter (fun x => x.get_top_predicate == some p)) :
    e.get_top_predicate = some p := by
  have := List.of_mem_filter h
  exact beq_iff_eq.mp this

lemma rel_scores_spec (a : Assertion) (p : String) :
    ∃ qs : List ℚ,
      (a.evidence_list.filter (fun e => e.get_top_predicate == some p)).map
        (fun e => e.get_score none) = qs.map some ∧
      (a.evidence_list.filter (fun e => e.get_top_predicate == some p)).filterMap
        (fun e => e.get_score none) = qs ∧
      qs.length =
        (a.evidence_list.filter (fun e => e.get_top_predicate == some p)).length := by
  apply exists_of_forall_isSome
  intro e he
  have htop := top_of_mem_rel he
  obtain ⟨q, hq⟩ := score_lookup_some_of_top htop
  rw [get_score_none_eq htop, hq]
  rfl

lemma rel_ne_nil_of_mem {a : Assertion} {p : String} (h : p ∈ a.get_predicates) :
    a.evidence_list.filter (fun e => e.get_top_predicate == some p) ≠ [] := by
  obtain ⟨e, he, htop⟩ := (mem_predicates_iff a p).mp h
  have : e ∈ a.evidence_list.filter (fun x => x.get_top_predicate == some p) :=
    List.mem_filter.mpr ⟨he, by simp [htop]⟩
  intro hc
  rw [hc] at this
  exact absurd this (List.not_mem_nil e)

lemma aggregate_isSome_of_mem {a : Assertion} {p : String} (h : p ∈ a.get_predicates) :
    (a.get_aggregate_score p).isSome = true := by
  obtain ⟨qs, _, h2, h3⟩ := rel_scores_spec a p
  have hne : qs.length ≠ 0 := by
    rw [h3]
    simp [List.length_eq_zero, rel_ne_nil_of_mem h]
  simp only [Assertion.get_aggregate_score, h2]
  rw [if_neg hne]
  rfl

lemma aggregate_perm_invariant (a a' : Assertion) (p : String)
    (h : List.Perm a'.evidence_list a.evidence_list) :
    a'.get_aggregate_score p = a.get_aggregate_score p := by
  simp only [Assertion.get_aggregate_score]
  have h2 : List.Perm
      ((a'.evidence_list.filter (fun e => e.get_top_predicate == some p)).filterMap
        (fun e => e.get_score none))
      ((a.evidence_list.filter (fun e => e.get_top_predicate == some p)).filterMap
        (fun e => e.get_score none)) :=
    (h.filter _).filterMap _
  rw [h2.length_eq, h2.sum_eq]

/-- The claim id is C3.  For every assertion and every supported predicate p,
the aggregate score is some value, namely the arithmetic mean of
get_score(p) over exactly the evidence items whose top predicate is p (all of
which have a score, exhibited by the list qs), and the aggregate is invariant
under any reordering of the evidence list, hence of that evidence subset. -/
theorem c3_aggregate_is_mean_and_perm_invariant (a : Assertion) (p : String)
    (h : p ∈ a.get_predicates) :
    ∃ qs : List ℚ,
      (a.evidence_list.filter (fun e => e.get_top_predicate == some p)).map
        (fun e => e.get_score (some p)) = qs.map some ∧
      qs ≠ [] ∧
      a.get_aggregate_score p = some (qs.sum / (qs.length : ℚ)) ∧
      ∀ a' : Assertion, List.Perm a'.evidence_list a.evidence_list →
        a'.get_aggregate_score p = a.get_aggregate_score p := by
  obtain ⟨qs, h1, h2, h3⟩ := rel_scores_spec a p
  have hne : qs.length ≠ 0 := by
    rw [h3]
    simp [List.length_eq_zero, rel_ne_nil_of_mem h]
  refine ⟨qs, ?_, ?_, ?_, fun a' hp => aggregate_perm_invariant a a' p hp⟩
  · rw [← h1]
    apply List.map_congr_left
    intro e he
    have htop := top_of_mem_rel he
    rw [get_score_none_eq htop]
    rfl
  · intro hc; rw [hc] at hne; exact hne rfl
  · simp only [Assertion.get_aggregate_score, h2]
    rw [if_neg hne]

/-- Concrete fixture helper for evidence rows. -/
def sampleEvidence (id : String) (scores : List EvidenceScore) (vers : List Int) :
    Evidence :=
  { evidence_id := id, assertion_id := "A", document_id := "PMID:1",
    sentence := "s", subject_entity := none, object_entity := none,
    document_zone := "abstract", document_publication_type := "Journal Article",
    document_year_published := 2021, evidence_scores := scores,
    version := vers.map (fun v => ⟨v⟩) }

/-- Concrete fixture: an assertion with two evidence items sharing the same
top predicate with distinct scores, plus full version tags. -/
def c3Assertion : Assertion :=
  { assertion_id := "A3", subject_curie := "PR:000001",
    object_curie := "PR:000002", association_curie := "biolink:Association",
    evidence_list :=
      [sampleEvidence "E301" [⟨"E301", "biolink:treats", 1⟩] [2],
       sampleEvidence "E302" [⟨"E302", "biolink:treats", 3⟩] [2]],
    subject_uniprot := none, object_uniprot := none }

/-- Witness for C3 at a concrete assertion and predicate. -/
theorem c3_witness :
    ∃ qs : List ℚ,
      (c3Assertion.evidence_list.filter
        (fun e => e.get_top_predicate == some "biolink:treats")).map
        (fun e => e.get_score (some "biolink:treats")) = qs.map some ∧
      qs ≠ [] ∧
      c3Assertion.get_aggregate_score "biolink:treats" =
        some (qs.sum / (qs.length : ℚ)) ∧
      ∀ a' : Assertion, List.Perm a'.evidence_list c3Assertion.evidence_list →
        a'.get_aggregate_score "biolink:treats" =
          c3Assertion.get_aggregate_score "biolink:treats" :=
  c3_aggregate_is_mean_and_perm_invariant c3Assertion "biolink:treats" (by decide)

/-- The claim id is C8.  When every evidence item of an assertion has at
least one EvidenceScore and p is a supported predicate, the evidence subset
averaged by get_aggregate_score is non-empty and the aggregate is defined
(no division by zero); conversely an undefined aggregate can only happen for
a predicate outside the supported set. -/
theorem c8_aggregate_no_div_by_zero (a : Assertion) (p : String)
    (h1 : ∀ e ∈ a.evidence_list, e.evidence_scores ≠ [])
    (h2 : p ∈ a.get_predicates) :
    a.evidence_list.filter (fun e => e.get_top_predicate == some p) ≠ [] ∧
    (a.get_aggregate_score p).isSome = true ∧
    ∀ q : String, a.get_aggregate_score q = none → q ∉ a.get_predicates := by
  refine ⟨rel_ne_nil_of_mem h2, aggregate_isSome_of_mem h2, ?_⟩
  intro q hnone hq
  have := aggregate_isSome_of_mem hq
  rw [hnone] at this
  simp at this

/-- Witness for C8 at a concrete assertion and predicate. -/
theorem c8_witness :
    c3Assertion.evidence_list.filter
      (fun e => e.get_top_predicate == some "biolink:treats") ≠ [] ∧
    (c3Assertion.get_aggregate_score "biolink:treats").isSome = true ∧
    ∀ q : String, c3Assertion.get_aggregate_score q = none →
      q ∉ c3Assertion.get_predicates :=
  c8_aggregate_no_div_by_zero c3Assertion "biolink:treats" (by decide) (by decide)

/-- The claim id is C9.  get_score with an explicit predicate returns the
stored score when a matching EvidenceScore row exists and the sentinel none
when no row matches, in particular when the evidence has no scores at all. -/
theorem c9_score_absent_sentinel (e : Evidence) (p : String) :
    (e.evidence_scores = [] → e.get_score (some p) = none) ∧
    ((∀ s ∈ e.evidence_scores, s.predicate_curie ≠ p) → e.get_score (some p) = none) ∧
    ((∃ s ∈ e.evidence_scores, s.predicate_curie = p) →
      ∃ s ∈ e.evidence_scores, s.predicate_curie = p ∧
        e.get_score (some p) = some s.score) := by
  refine ⟨?_, ?_, ?_⟩
  · intro h
    simp [Evidence.get_score, Evidence.score_lookup, h]
  · intro h
    have hfind : e.evidence_scores.find? (fun x => x.predicate_curie == p) = none := by
      rw [List.find?_eq_none]
      intro s hs
      simpa using h s hs
    simp [Evidence.get_score, Evidence.score_lookup, hfind]
  · intro h
    obtain ⟨s0, hs0, hp0⟩ := h
    have hfind : (e.evidence_scores.find? (fun x => x.predicate_curie == p)).isSome :=
      List.find?_isSome.mpr ⟨s0, hs0, by simp [hp0]⟩
    obtain ⟨r, hr⟩ := Option.isSome_iff_exists.mp hfind
    have hpr : (r.predicate_curie == p) = true :=
      @List.find?_some _ (fun x => x.predicate_curie == p) r e.evidence_scores hr
    refine ⟨r, List.mem_of_find?_eq_some hr, beq_iff_eq.mp hpr, ?_⟩
    simp [Evidence.get_score, Evidence.score_lookup, hr]

/-- Concrete fixture: an evidence item scored for a single predicate. -/
def c9Evidence : Evidence :=
  sampleEvidence "E901" [⟨"E901", "biolink:treats", 1⟩] [2]

/-- Witness for C9: on a concrete evidence item an unscored predicate gets
the sentinel, and the scored one gets its stored score. -/
theorem c9_witness :
    Evidence.get_score c9Evidence (some "biolink:affects") = none ∧
    ∃ s ∈ c9Evidence.evidence_scores, s.predicate_curie = "biolink:treats" ∧
      c9Evidence.get_score (some "biolink:treats") = some s.score :=
  ⟨(c9_score_absent_sentinel c9Evidence "biolink:affects").2.1 (by decide),
   (c9_score_absent_sentinel c9Evidence "biolink:treats").2.2 (by decide)⟩

/-! Helper lemmas about the stable descending sort on edges. -/

lemma insertEdgeDesc_perm (x : Edge) (l : List Edge) :
    List.Perm (insertEdgeDesc x l) (x :: l) := by
  induction l with
  | nil => exact List.Perm.refl _
  | cons y ys ih =>
    by_cases h : x.confidence_score < y.confidence_score
    · simp only [insertEdgeDesc, if_pos h]
      exact (ih.cons y).trans (List.Perm.swap x y ys)
    · simp only [insertEdgeDesc, if_neg h]
      exact List.Perm.refl _

lemma sortEdgesDesc_perm (l : List Edge) : List.Perm (sortEdgesDesc l) l := by
  induction l with
  | nil => exact List.Perm.refl _
  | cons x xs ih =>
    exact (insertEdgeDesc_perm x (sortEdgesDesc xs)).trans (ih.cons x)

lemma insertEdgeDesc_pairwise (x : Edge) (l : List Edge)
    (h : l.Pairwise (fun a b => b.confidence_score ≤ a.confidence_score)) :
    (insertEdgeDesc x l).Pairwise
      (fun a b => b.confidence_score ≤ a.confidence_score) := by
  induction l with
  | nil => simp [insertEdgeDesc]
  | cons y ys ih =>
    rcases List.pairwise_cons.mp h with ⟨hy, hys⟩
    by_cases hxy : x.confidence_score < y.confidence_score
    · simp only [insertEdgeDesc, if_pos hxy]
      refine List.pairwise_cons.mpr ⟨?_, ih hys⟩
      intro z hz
      have hz2 : z ∈ x :: ys := (insertEdgeDesc_perm x ys).mem_iff.mp hz
      rcases List.mem_cons.mp hz2 with h1 | h1
      · rw [h1]; exact le_of_lt hxy
      · exact hy z h1
    · push_neg at hxy
      simp only [insertEdgeDesc, if_neg (not_lt.mpr hxy)]
      refine List.pairwise_cons.mpr ⟨?_, h⟩
      intro z hz
      rcases List.mem_cons.mp hz with h1 | h1
      · rw [h1]; exact hxy
      · exact le_trans (hy z h1) hxy

lemma sortEdgesDesc_pairwise (l : List Edge) :
    (sortEdgesDesc l).Pairwise
      (fun a b => b.confidence_score ≤ a.confidence_score) := by
  induction l with
  | nil => simp [sortEdgesDesc]
  | cons x xs ih => exact insertEdgeDesc_pairwise x _ ih

lemma insertEdgeDesc_filter (x : Edge) (l : List Edge) (q : ℚ) :
    (insertEdgeDesc x l).filter (fun e => e.confidence_score == q) =
      if x.confidence_score == q
      then x :: l.filter (fun e => e.confidence_score == q)
      else l.filter (fun e => e.confidence_score == q) := by
  induction l with
  | nil =>
    by_cases hq : (x.confidence_score == q) = true <;>
      simp [insertEdgeDesc, List.filter, hq]
  | cons y ys ih =>
    by_cases hxy : x.confidence_score < y.confidence_score
    · simp only [insertEdgeDesc, if_pos hxy]
      by_cases hq : (x.confidence_score == q) = true
      · have hxq : x.confidence_score = q := beq_iff_eq.mp hq
        have hyq : (y.confidence_score == q) = false := by
          apply beq_eq_false_iff_ne.mpr
          intro hc
          rw [hc, ← hxq] at hxy
          exact lt_irrefl _ hxy
        simp [List.filter_cons, hyq, ih, hq]
      · simp [List.filter_cons, ih, hq]
    · simp only [insertEdgeDesc, if_neg hxy]
      by_cases hq : (x.confidence_score == q) = true
      · simp [List.filter_cons, hq]
      · simp [List.filter_cons, hq]

lemma sortEdgesDesc_filter (l : List Edge) (q : ℚ) :
    (sortEdgesDesc l).filter (fun e => e.confidence_score == q) =
      l.filter (fun e => e.confidence_score == q) := by
  induction l with
  | nil => rfl
  | cons x xs ih =>
    have hstep : sortEdgesDesc (x :: xs) = insertEdgeDesc x (sortEdgesDesc xs) := rfl
    rw [hstep, insertEdgeDesc_filter]
    by_cases hq : (x.confidence_score == q) = true
    · simp [List.filter_cons, hq, ih]
    · simp [List.filter_cons, hq, ih]

/-- The claim id is C6.  The emitted results sequence is the stable
descending sort of the surviving edges: it is a permutation of them, its
confidence scores are non-increasing, and for every score value the edges
carrying it appear in exactly their pre-sort relative order (stability). -/
theorem c6_ranking_sorted_stable (db : List Assertion) (s p o : String) :
    assertion_query_results db s p o = sortEdgesDesc (survivingEdges db s p o) ∧
    List.Perm (assertion_query_results db s p o) (survivingEdges db s p o) ∧
    (assertion_query_results db s p o).Pairwise
      (fun a b => b.confidence_score ≤ a.confidence_score) ∧
    ∀ q : ℚ,
      (assertion_query_results db s p o).filter (fun e => e.confidence_score == q) =
        (survivingEdges db s p o).filter (fun e => e.confidence_score == q) :=
  ⟨rfl, sortEdgesDesc_perm _, sortEdgesDesc_pairwise _,
   fun q => sortEdgesDesc_filter _ q⟩

/-- The claim id is C7.  Keeping only edges whose version list contains a
given version tag is idempotent, and the surviving-edge computation factors
through exactly that version filter followed by the predicate post-filter. -/
theorem c7_version_filter_idempotent :
    (∀ (v : Int) (edges : List Edge),
      filterVersion v (filterVersion v edges) = filterVersion v edges) ∧
    (∀ (db : List Assertion) (s p o : String),
      survivingEdges db s p o =
        (filterVersion 2 (get_edge_list (selectAssertions db s o)
          (pyStartsWith s "UniProtKB" || pyStartsWith o "UniProtKB"))).filter
          (keepPredicate p)) := by
  constructor
  · intro v edges
    unfold filterVersion
    rw [List.filter_filter]
    apply List.filter_congr
    intro e _
    simp
  · intro db s p o
    unfold survivingEdges filterVersion
    rw [List.filter_filter]
    apply List.filter_congr
    intro e _
    exact Bool.and_comm _ _

/-! Helper lemmas for the raw edge list: partitioning the evidence by top
predicate. -/

lemma flatMap_congr {α β : Type} {f g : α → List β} :
    ∀ l : List α, (∀ a ∈ l, f a = g a) → l.flatMap f = l.flatMap g := by
  intro l
  induction l with
  | nil => intro _; rfl
  | cons x xs ih =>
    intro h
    simp only [List.flatMap_cons]
    rw [h x (List.mem_cons_self _ _), ih (fun a ha => h a (List.mem_cons_of_mem _ ha))]

/-- Iterating over a duplicate-free list of predicates and collecting, for
each, the evidence whose top predicate it is, yields a permutation of the
evidence list, provided every evidence item's top predicate occurs in the
predicate list. -/
lemma flatMap_filter_perm :
    ∀ (ps : List String) (evs : List Evidence), ps.Nodup →
      (∀ e ∈ evs, ∃ p ∈ ps, e.get_top_predicate = some p) →
      List.Perm
        (ps.flatMap (fun p => evs.filter (fun e => e.get_top_predicate == some p)))
        evs := by
  intro ps
  induction ps with
  | nil =>
    intro evs _ h
    cases evs with
    | nil => exact List.Perm.refl _
    | cons e t =>
      obtain ⟨p, hp, _⟩ := h e (List.mem_cons_self _ _)
      exact absurd hp (List.not_mem_nil p)
  | cons p ps ih =>
    intro evs hnd h
    rcases List.nodup_cons.mp hnd with ⟨hpnotin, hnd2⟩
    have hstep : ∀ q ∈ ps,
        evs.filter (fun e => e.get_top_predicate == some q) =
        (evs.filter (fun e => !(e.get_top_predicate == some p))).filter
          (fun e => e.get_top_predicate == some q) := by
      intro q hq
      rw [List.filter_filter]
      apply List.filter_congr
      intro e _
      by_cases ht : (e.get_top_predicate == some q) = true
      · have heq : e.get_top_predicate = some q := beq_iff_eq.mp ht
        have hne : (e.get_top_predicate == some p) = false := by
          apply beq_eq_false_iff_ne.mpr
          rw [heq]
          intro hc
          injection hc with hqp
          exact hpnotin (hqp ▸ hq)
        simp [ht, hne]
      · simp [ht]
    have hmemb : ∀ e ∈ evs.filter (fun e => !(e.get_top_predicate == some p)),
        ∃ q ∈ ps, e.get_top_predicate = some q := by
      intro e he
      have he1 : e ∈ evs := List.mem_of_mem_filter he
      have he2 := List.of_mem_filter he
      obtain ⟨q, hq, htq⟩ := h e he1
      rcases List.mem_cons.mp hq with h1 | h1
      · exfalso
        rw [h1] at htq
        rw [htq] at he2
        simp at he2
      · exact ⟨q, h1, htq⟩
    have hIH := ih (evs.filter (fun e => !(e.get_top_predicate == some p))) hnd2 hmemb
    have e1 : (p :: ps).flatMap
        (fun q => evs.filter (fun e => e.get_top_predicate == some q)) =
        evs.filter (fun e => e.get_top_predicate == some p) ++
        ps.flatMap (fun q => evs.filter (fun e => e.get_top_predicate == some q)) := by
      simp [List.flatMap_cons]
    rw [e1, flatMap_congr ps hstep]
    exact (List.Perm.append_left _ hIH).trans (List.filter_append_perm _ evs)

lemma matchedPairs_snd_perm (a : Assertion)
    (h : ∀ e ∈ a.evidence_list, e.evidence_scores ≠ []) :
    List.Perm (a.matchedPairs.map Prod.snd) a.evidence_list := by
  have hm : a.matchedPairs.map Prod.snd =
      a.get_predicates.flatMap
        (fun p => a.evidence_list.filter (fun e => e.get_top_predicate == some p)) := by
    unfold Assertion.matchedPairs
    rw [List.map_flatMap]
    apply flatMap_congr
    intro p _
    rw [List.map_map]
    simp
  rw [hm]
  apply flatMap_filter_perm
  · exact List.nodup_dedup _
  · intro e he
    obtain ⟨p, hp⟩ := top_isSome_of_ne_nil (h e he)
    exact ⟨p, (mem_predicates_iff a p).mpr ⟨e, he, hp⟩, hp⟩

/-- The claim id is C10.  For an assertion whose every evidence item has at
least one EvidenceScore, the nested loop of the raw edge-list builder
matches each evidence item under exactly one predicate (its top predicate):
the matched evidence is a permutation of the evidence list, and the raw
edge list has exactly one row per evidence item. -/
theorem c10_one_row_per_evidence (a : Assertion) (u : Bool)
    (h : ∀ e ∈ a.evidence_list, e.evidence_scores ≠ []) :
    List.Perm (a.matchedPairs.map Prod.snd) a.evidence_list ∧
    (get_edge_list [a] u).length = a.evidence_list.length := by
  refine ⟨matchedPairs_snd_perm a h, ?_⟩
  have hlen : (get_edge_list [a] u).length = a.matchedPairs.length := by
    simp [get_edge_list]
  rw [hlen]
  have hpl := (matchedPairs_snd_perm a h).length_eq
  simpa using hpl

/-- Concrete fixture: an assertion whose two evidence items have different
top predicates. -/
def c10Assertion : Assertion :=
  { assertion_id := "A10", subject_curie := "PR:000010",
    object_curie := "PR:000011", association_curie := "biolink:Association",
    evidence_list :=
      [sampleEvidence "E101" [⟨"E101", "biolink:treats", 2⟩,
                              ⟨"E101", "biolink:contributes_to", 1⟩] [2],
       sampleEvidence "E102" [⟨"E102", "biolink:treats", 1⟩,
                              ⟨"E102", "biolink:contributes_to", 4⟩] [2]],
    subject_uniprot := none, object_uniprot := none }

/-- Witness for C10 at a concrete assertion. -/
theorem c10_witness :
    List.Perm (c10Assertion.matchedPairs.map Prod.snd) c10Assertion.evidence_list ∧
    (get_edge_list [c10Assertion] false).length =
      c10Assertion.evidence_list.length :=
  c10_one_row_per_evidence c10Assertion false (by decide)

/-- The claim id is C5.  The KGX exporter emits exactly one record per
supported predicate (the predicate list is duplicate-free), each record has
the nine fields of the export row with the aggregate score in the score
position, and its attributes are exactly five assertion-level attributes
(with the evidence count and the aggregate confidence in third and fourth
position) followed by one evidence-level block per contributing evidence
item. -/
theorem c5_kgx_export_shape (a : Assertion) :
    a.get_edges_kgx = a.get_predicates.map a.get_edge_kgx ∧
    a.get_predicates.Nodup ∧
    ∀ p : String,
      (a.get_edge_kgx p).subject = a.subject_curie ∧
      (a.get_edge_kgx p).predicate = p ∧
      (a.get_edge_kgx p).object = a.object_curie ∧
      (a.get_edge_kgx p).assertion_id = a.assertion_id ∧
      (a.get_edge_kgx p).association_curie = a.association_curie ∧
      (a.get_edge_kgx p).score = a.get_aggregate_score p ∧
      (a.get_edge_kgx p).supporting_study_results = String.intercalate "|"
        ((a.evidence_list.filter (fun ev => ev.get_top_predicate == some p)).map
          (fun ev => "tmkp:" ++ ev.evidence_id)) ∧
      (a.get_edge_kgx p).supporting_publications = String.intercalate "|"
        ((a.evidence_list.filter (fun ev => ev.get_top_predicate == some p)).map
          Evidence.document_id) ∧
      (a.get_edge_kgx p).attributes.length = 5 +
        (a.evidence_list.filter (fun ev => ev.get_top_predicate == some p)).length ∧
      (a.get_edge_kgx p).attributes.drop 5 =
        (a.evidence_list.filter (fun ev => ev.get_top_predicate == some p)).map
          Evidence.get_json_attributes ∧
      (a.get_edge_kgx p).attributes.get? 2 = some (evidenceCountAttr
        (a.evidence_list.filter (fun ev => ev.get_top_predicate == some p)).length) ∧
      (a.get_edge_kgx p).attributes.get? 3 =
        some (confidenceAttr (a.get_aggregate_score p)) := by
  refine ⟨rfl, List.nodup_dedup _, ?_⟩
  intro p
  refine ⟨rfl, rfl, rfl, rfl, rfl, rfl, rfl, rfl, ?_, rfl, rfl, rfl⟩
  simp [Assertion.get_edge_kgx, Assertion.get_json_attributes]
  ring

/-- Concrete fixture: the edge row built from the first evidence item of
c3Assertion (subject/object in raw CURIE mode). -/
def c1Edge : Edge :=
  { document_pmid := "PMID:1", document_zone := "abstract",
    document_year := 2021, predicate_curie := "biolink:treats",
    confidence_score := 1, sentence := "s", subject_span := "0|0",
    object_span := "0|0", subject_curie := "PR:000001",
    object_curie := "PR:000002", version := [2] }

/-- Counterexample for C1 as stated: on a concrete assertion with two
evidence items (scores 1 and 3, same top predicate), the edge-list builder
emits rows carrying the individual scores 1 and 3 while the assertion-level
aggregate for that predicate is 2, so an emitted row's confidence_score
differs from the aggregate. -/
theorem c1_counterexample :
    (get_edge_list [c3Assertion] false).map Edge.confidence_score = [1, 3] ∧
    (get_edge_list [c3Assertion] false).map Edge.predicate_curie =
      ["biolink:treats", "biolink:treats"] ∧
    c3Assertion.get_aggregate_score "biolink:treats" = some 2 ∧
    ∃ e ∈ get_edge_list [c3Assertion] false,
      some e.confidence_score ≠ c3Assertion.get_aggregate_score e.predicate_curie := by
  have hagg : c3Assertion.get_aggregate_score "biolink:treats" = some 2 := by
    have h : c3Assertion.get_aggregate_score "biolink:treats" =
        some (((1 : ℚ) + (3 + 0)) / ((2 : ℕ) : ℚ)) := rfl
    rw [h]
    norm_num
  refine ⟨by decide, by decide, hagg, c1Edge, by decide, ?_⟩
  have hp : c1Edge.predicate_curie = "biolink:treats" := rfl
  rw [hp, hagg]
  decide

/-- The claim id is C1, amended.  Every edge record emitted by the edge-list
builder carries as confidence_score the individual evidence item's score for
the edge's predicate (scoreFor of the generating evidence), not the
assertion-level aggregate. -/
theorem c1_amended_confidence_is_individual (assertions : List Assertion)
    (u : Bool) (edge : Edge) (h : edge ∈ get_edge_list assertions u) :
    ∃ a ∈ assertions, ∃ e ∈ a.evidence_list,
      e.get_top_predicate = some edge.predicate_curie ∧
      e.get_score (some edge.predicate_curie) = some edge.confidence_score := by
  unfold get_edge_list at h
  rw [List.mem_flatMap] at h
  obtain ⟨a, ha, hmem⟩ := h
  simp only [List.mem_map] at hmem
  obtain ⟨pe, hpe, hedge⟩ := hmem
  unfold Assertion.matchedPairs at hpe
  rw [List.mem_flatMap] at hpe
  obtain ⟨p, _, hpe2⟩ := hpe
  rw [List.mem_map] at hpe2
  obtain ⟨ev, hev, hpe3⟩ := hpe2
  have htop : ev.get_top_predicate = some p := top_of_mem_rel hev
  obtain ⟨q, hq⟩ := score_lookup_some_of_top htop
  have hq2 : ev.get_score (some p) = some q := hq
  refine ⟨a, ha, ev, List.mem_of_mem_filter hev, ?_, ?_⟩
  · rw [← hedge, ← hpe3]
    exact htop
  · rw [← hedge, ← hpe3]
    show ev.get_score (some p) = some ((ev.get_score (some p)).getD 0)
    rw [hq2]
    rfl

/-- Witness for the amended C1 at a concrete emitted edge. -/
theorem c1_witness :
    ∃ a ∈ [c3Assertion], ∃ e ∈ a.evidence_list,
      e.get_top_predicate = some c1Edge.predicate_curie ∧
      e.get_score (some c1Edge.predicate_curie) = some c1Edge.confidence_score :=
  c1_amended_confidence_is_individual [c3Assertion] false c1Edge (by decide)

/-- Concrete fixture: the edge row built from the second evidence item of
c3Assertion (score 3). -/
def c2Edge3 : Edge :=
  { document_pmid := "PMID:1", document_zone := "abstract",
    document_year := 2021, predicate_curie := "biolink:treats",
    confidence_score := 3, sentence := "s", subject_span := "0|0",
    object_span := "0|0", subject_curie := "PR:000001",
    object_curie := "PR:000002", version := [2] }

/-- Counterexample for C2 as stated: the lowercase predicate spec "any" is
not treated as a wildcard (the query that keeps both edges under the exact
spec "Any" returns nothing under "any"), and the object spec "ANY" with a
concrete subject is matched as a literal CURIE, not as a wildcard, so the
case-insensitive wildcard recognition claimed for all three positions fails
at these concrete inputs. -/
theorem c2_counterexample :
    pyLower "any" = "any" ∧
    assertion_query_results [c3Assertion] "any" "any" "any" = [] ∧
    assertion_query_results [c3Assertion] "any" "Any" "any" = [c2Edge3, c1Edge] ∧
    pyLower "ANY" = "any" ∧
    selectAssertions [c3Assertion] "PR:000001" "ANY" = [] :=
  ⟨rfl, by decide, by decide, rfl, by decide⟩

/-- The claim id is C2, amended.  The wildcard is case-insensitive for the
subject spec, and for the object spec only when the subject is also a
wildcard; with a concrete subject the object wildcard must be exactly "Any",
and the predicate post-filter wildcard must be exactly "Any" (any other
predicate spec keeps an edge only on exact predicate match). -/
theorem c2_amended_wildcard_handling :
    (∀ (db : List Assertion) (s o : String), pyLower s = "any" → pyLower o = "any" →
      selectAssertions db s o = db.take EDGE_LIMIT) ∧
    (∀ (db : List Assertion) (s o : String), pyLower s = "any" → pyLower o ≠ "any" →
      selectAssertions db s o = (db.filter (fun a =>
        if pyStartsWith o "UniProtKB" then uniprotHas a.object_uniprot o
        else a.object_curie == o)).take EDGE_LIMIT) ∧
    (∀ (db : List Assertion) (s o : String), pyLower s ≠ "any" → o = "Any" →
      selectAssertions db s o = (db.filter (fun a =>
        if pyStartsWith s "UniProtKB" then uniprotHas a.subject_uniprot s
        else a.subject_curie == s)).take EDGE_LIMIT) ∧
    (∀ e : Edge, keepPredicate "Any" e = true) ∧
    (∀ (p : String) (e : Edge), p ≠ "Any" →
      (keepPredicate p e = true ↔ e.predicate_curie = p)) := by
  refine ⟨?_, ?_, ?_, ?_, ?_⟩
  · intro db s o hs ho
    simp [selectAssertions, hs, ho]
  · intro db s o hs ho
    by_cases hou : pyStartsWith o "UniProtKB" = true
    · simp [selectAssertions, hs, ho, hou]
    · simp [selectAssertions, hs, ho, hou]
  · intro db s o hs ho
    subst ho
    by_cases hsu : pyStartsWith s "UniProtKB" = true
    · simp [selectAssertions, hs, hsu]
    · simp [selectAssertions, hs, hsu]
  · intro e
    simp [keepPredicate]
  · intro p e hp
    simp [keepPredicate, hp]

/-- Witness for the amended C2 at concrete inputs: the two subject-wildcard
spellings behave as wildcards with both a wildcard and a concrete object
spec, and the exact predicate wildcard keeps a concrete edge. -/
theorem c2_witness :
    selectAssertions [c3Assertion] "ANY" "aNy" = [c3Assertion].take EDGE_LIMIT ∧
    selectAssertions [c3Assertion] "AnY" "PR:000002" =
      ([c3Assertion].filter (fun a =>
        if pyStartsWith "PR:000002" "UniProtKB" then
          uniprotHas a.object_uniprot "PR:000002"
        else a.object_curie == "PR:000002")).take EDGE_LIMIT ∧
    keepPredicate "Any" c1Edge = true :=
  ⟨c2_amended_wildcard_handling.1 [c3Assertion] "ANY" "aNy" (by decide) (by decide),
   c2_amended_wildcard_handling.2.1 [c3Assertion] "AnY" "PR:000002"
     (by decide) (by decide),
   c2_amended_wildcard_handling.2.2.2.1 c1Edge⟩

end TMAS
